import Mathlib

/-!
Verification of the command-based drawing model of the Waat.io sketchpad
(src/src/main.ts).

The embedding below translates the core of the program:
* the domain types (MarkerTool, StickerTool, Tool, Sticker) from the
  "Domain Types" section of main.ts;
* the display commands (MarkerLine, MarkerPreview, StickerCmd/StickerPreview
  via renderStickerOnCanvas) as functions producing lists of canvas
  operations issued to the 2D surface;
* the mutable globals (commands, undoneCmd, currentCmd, toolPreview,
  inputState.isDrawing, currentTool, currentHue, currentRotation, and the
  point arrays inside open MarkerLine closures) as one explicit State
  record.  The point array shared between an open MarkerLine closure and
  its occurrence in the command stacks is modelled by a stroke id plus a
  store `strokePoints : Nat → List Point`, so aliasing of the open stroke
  is represented faithfully;
* every event handler (canvas mousedown/mousemove/mouseleave, the global
  mouseup, the clear/undo/redo/export button handlers, the hue and
  rotation slider input handlers, selectMarker and the sticker palette
  click handler) as one case of the executable `step` function, which also
  returns the list of render-triggering canvas events the handler
  dispatches (drawing-changed / tool-moved);
* exportHighRes as a function from the command log to an offscreen export
  surface description.
-/

namespace Waat

/-- Canvas-space point, as the `{x, y}` value objects of main.ts. -/
abbrev Point := Int × Int

/-- Sticker metadata object (interface Sticker; only `emoji` and `name` are
ever read by the core; `defaultRotation`/`scale` are never used). -/
structure Sticker where
  emoji : String
  name : Option String := none
  deriving Repr, DecidableEq

/-- MarkerTool groups width and hue (interface MarkerTool). -/
structure MarkerTool where
  width : Nat
  hue : Int
  deriving Repr, DecidableEq

/-- StickerTool groups the sticker object and the rotation (interface
StickerTool). -/
structure StickerTool where
  sticker : Sticker
  rotation : Int
  deriving Repr, DecidableEq

/-- The tagged tool union (type Tool in main.ts). -/
inductive Tool where
  | marker (data : MarkerTool)
  | sticker (data : StickerTool)
  deriving Repr, DecidableEq

/-- A committed Drawable sitting in the command log or the redo stack.
A MarkerLine closure owns a growable point array; we name it by a stroke
id into the `strokePoints` store so that the very same points are seen
from the log, the redo stack and the controller's `currentCmd` alias.
A StickerCmd captures position and StickerTool at creation. -/
inductive Drawable where
  | line (id : Nat) (tool : MarkerTool)
  | sticker (x y : Int) (tool : StickerTool)
  deriving Repr, DecidableEq

/-- The ephemeral preview command returned by makePreview: either a
MarkerPreview or a StickerPreview, capturing pointer position and the
tool data at creation time. -/
inductive PreviewCmd where
  | markerPrev (x y : Int) (tool : MarkerTool)
  | stickerPrev (x y : Int) (tool : StickerTool)
  deriving Repr, DecidableEq

/-- getColorFromHue from main.ts. -/
def getColorFromHue (hue : Int) : String :=
  "hsl(" ++ toString hue ++ ", 70%, 50%)"

/-- One primitive issued to a CanvasRenderingContext2D by a display call. -/
inductive CanvasOp where
  | setLineWidth (w : Nat)
  | setStrokeStyle (c : String)
  | beginPath
  | moveTo (x y : Int)
  | lineTo (x y : Int)
  | strokePath
  | save
  | restore
  | setFillStyle (c : String)
  | arc (x y : Int) (w : Nat)
  | fill
  | setFont (f : String)
  | setTextAlign (a : String)
  | setTextBaseline (b : String)
  | translate (x y : Int)
  | rotateByDeg (deg : Int)
  | fillText (t : String) (x y : Int)
  | scale (sx sy : Nat)
  | clearRect (x y : Int) (w h : Nat)
  deriving Repr, DecidableEq

/-- display of a MarkerLine command (main.ts lines 284-300): with fewer
than 2 points nothing is drawn at all; otherwise set line width and
stroke style, begin a path, move to the first point, draw a line segment
to each later point, and stroke. -/
def markerLineDisplay (points : List Point) (tool : MarkerTool) : List CanvasOp :=
  if points.length < 2 then []
  else
    match points with
    | [] => []
    | first :: rest =>
      [CanvasOp.setLineWidth tool.width,
       CanvasOp.setStrokeStyle (getColorFromHue tool.hue),
       CanvasOp.beginPath,
       CanvasOp.moveTo first.1 first.2]
      ++ rest.map (fun p => CanvasOp.lineTo p.1 p.2)
      ++ [CanvasOp.strokePath]

/-- display of a MarkerPreview command (main.ts lines 306-321). -/
def markerPreviewDisplay (x y : Int) (tool : MarkerTool) : List CanvasOp :=
  [CanvasOp.save, CanvasOp.beginPath,
   CanvasOp.setFillStyle (getColorFromHue tool.hue),
   CanvasOp.arc x y tool.width, CanvasOp.fill, CanvasOp.restore]

/-- renderStickerOnCanvas (main.ts lines 327-342): save, set font and
alignment, translate to the position, rotate by the angle in degrees,
draw the glyph, restore. Used by both StickerCmd and StickerPreview. -/
def renderStickerOnCanvas (x y : Int) (sticker : Sticker) (rotation : Int) :
    List CanvasOp :=
  [CanvasOp.save, CanvasOp.setFont "20px serif",
   CanvasOp.setTextAlign "center", CanvasOp.setTextBaseline "middle",
   CanvasOp.translate x y, CanvasOp.rotateByDeg rotation,
   CanvasOp.fillText sticker.emoji 0 0, CanvasOp.restore]

/-- display of a committed Drawable; lines look their current points up in
the shared stroke store. -/
def displayDrawable (pts : Nat → List Point) : Drawable → List CanvasOp
  | Drawable.line id tool => markerLineDisplay (pts id) tool
  | Drawable.sticker x y tool => renderStickerOnCanvas x y tool.sticker tool.rotation

/-- display of a preview command. -/
def displayPreview : PreviewCmd → List CanvasOp
  | PreviewCmd.markerPrev x y t => markerPreviewDisplay x y t
  | PreviewCmd.stickerPrev x y t => renderStickerOnCanvas x y t.sticker t.rotation

/-- The render-triggering custom events the handlers dispatch on the canvas. -/
inductive RenderEvent where
  | drawingChanged
  | toolMoved
  deriving Repr, DecidableEq

/-- The whole mutable core state of main.ts. -/
structure State where
  /-- const commands: the command log / undo stack. -/
  commands : List Drawable
  /-- const undoneCmd: the redo stack. -/
  undoneCmd : List Drawable
  /-- the point arrays owned by MarkerLine closures, addressed by stroke id. -/
  strokePoints : Nat → List Point
  /-- next fresh stroke id (bookkeeping for the embedding). -/
  nextId : Nat
  /-- let currentCmd: the open MarkerLine the controller still holds, if any. -/
  currentCmd : Option Nat
  /-- inputState.isDrawing. -/
  isDrawing : Bool
  /-- let toolPreview. -/
  toolPreview : Option PreviewCmd
  /-- let currentTool. -/
  currentTool : Tool
  /-- let currentHue (slider-backed global mirror). -/
  currentHue : Int
  /-- let currentRotation (slider-backed global mirror). -/
  currentRotation : Int

/-- Point store update: the drag method pushing onto an existing array, or
a fresh array for a new MarkerLine. -/
def updatePts (f : Nat → List Point) (i : Nat) (v : List Point) :
    Nat → List Point :=
  fun j => if j = i then v else f j

/-- makePreview (main.ts lines 466-473). -/
def makePreview (tool : Tool) (x y : Int) : PreviewCmd :=
  match tool with
  | Tool.sticker st => PreviewCmd.stickerPrev x y st
  | Tool.marker mt => PreviewCmd.markerPrev x y mt

/-- The input events the core reacts to: pointer events (with their button
where the DOM delivers one), the four action buttons, the two sliders, and
the tool-selection buttons. -/
inductive InputEvent where
  | mousedown (button : Nat) (x y : Int)
  | mousemove (x y : Int)
  | mouseup (button : Nat)
  | mouseleave
  | clickClear
  | clickUndo
  | clickRedo
  | clickExport
  | hueInput (v : Int)
  | rotationInput (v : Int)
  | selectMarkerBtn (width : Nat)
  | selectStickerBtn (sk : Sticker)
  deriving Repr, DecidableEq

/-- One event-handler invocation: the new state together with the list of
render-triggering canvas events the handler dispatches.  Each case is the
direct translation of the corresponding handler in main.ts. -/
def step (s : State) : InputEvent → State × List RenderEvent
  | InputEvent.mousedown b x y =>
    -- canvas mousedown handler (lines 480-500)
    if b ≠ 0 then (s, [])
    else
      match s.currentTool with
      | Tool.sticker st =>
        ({ s with commands := s.commands ++ [Drawable.sticker x y st],
                  undoneCmd := [],
                  toolPreview := none },
         [RenderEvent.drawingChanged])
      | Tool.marker mt =>
        ({ s with isDrawing := true,
                  strokePoints := updatePts s.strokePoints s.nextId [(x, y)],
                  currentCmd := some s.nextId,
                  nextId := s.nextId + 1,
                  commands := s.commands ++ [Drawable.line s.nextId mt],
                  undoneCmd := [],
                  toolPreview := none },
         [RenderEvent.drawingChanged])
  | InputEvent.mousemove x y =>
    -- canvas mousemove handler (lines 503-512)
    if s.isDrawing = false then
      ({ s with toolPreview := some (makePreview s.currentTool x y) },
       [RenderEvent.toolMoved])
    else
      match s.currentCmd with
      | some id =>
        ({ s with strokePoints :=
             updatePts s.strokePoints id (s.strokePoints id ++ [(x, y)]) },
         [RenderEvent.drawingChanged])
      | none => (s, [])
  | InputEvent.mouseup _ =>
    -- global mouseup handler (lines 521-524); note it ignores the button
    ({ s with isDrawing := false, currentCmd := none }, [])
  | InputEvent.mouseleave =>
    -- canvas mouseleave handler (lines 515-518)
    ({ s with toolPreview := none }, [RenderEvent.toolMoved])
  | InputEvent.clickClear =>
    -- clear button handler (lines 531-537)
    ({ s with commands := [], undoneCmd := [] }, [RenderEvent.drawingChanged])
  | InputEvent.clickUndo =>
    -- undo button handler (lines 540-546)
    match s.commands.getLast? with
    | none => (s, [])
    | some d =>
      ({ s with commands := s.commands.dropLast,
                undoneCmd := s.undoneCmd ++ [d] },
       [RenderEvent.drawingChanged])
  | InputEvent.clickRedo =>
    -- redo button handler (lines 549-555)
    match s.undoneCmd.getLast? with
    | none => (s, [])
    | some d =>
      ({ s with undoneCmd := s.undoneCmd.dropLast,
                commands := s.commands ++ [d] },
       [RenderEvent.drawingChanged])
  | InputEvent.clickExport =>
    -- export button handler: exportHighRes touches no core state and
    -- dispatches no canvas event (lines 565-588)
    (s, [])
  | InputEvent.hueInput v =>
    -- hue slider input handler (lines 422-438): always updates the global
    -- currentHue; updates the tool only when it is a marker
    match s.currentTool with
    | Tool.marker mt =>
      ({ s with currentHue := v,
                currentTool := Tool.marker ⟨mt.width, v⟩ },
       [RenderEvent.toolMoved])
    | Tool.sticker _ =>
      ({ s with currentHue := v }, [RenderEvent.toolMoved])
  | InputEvent.rotationInput v =>
    -- rotation slider input handler (lines 440-456)
    match s.currentTool with
    | Tool.sticker st =>
      ({ s with currentRotation := v,
                currentTool := Tool.sticker ⟨st.sticker, v⟩ },
       [RenderEvent.toolMoved])
    | Tool.marker _ =>
      ({ s with currentRotation := v }, [RenderEvent.toolMoved])
  | InputEvent.selectMarkerBtn w =>
    -- selectMarker (lines 388-399): keeps hue from the global slider state
    ({ s with currentTool := Tool.marker ⟨w, s.currentHue⟩ },
     [RenderEvent.toolMoved])
  | InputEvent.selectStickerBtn sk =>
    -- sticker palette button click handler (lines 144-171)
    ({ s with currentTool := Tool.sticker ⟨sk, s.currentRotation⟩ },
     [RenderEvent.toolMoved])

/-- Run a list of events, keeping only the resulting state. -/
def runEvents (s : State) (evs : List InputEvent) : State :=
  evs.foldl (fun t e => (step t e).1) s

/-- redraw (main.ts lines 601-610): clear, replay the log in commit order,
then overlay the preview only when idle. -/
def redraw (s : State) : List CanvasOp :=
  CanvasOp.clearRect 0 0 256 256 ::
    ((s.commands.map (displayDrawable s.strokePoints)).flatten
      ++ (if s.isDrawing = false then
            match s.toolPreview with
            | some p => displayPreview p
            | none => []
          else []))

/-- The offscreen export surface produced by exportHighRes. -/
structure ExportSurface where
  width : Nat
  height : Nat
  ops : List CanvasOp
  deriving Repr, DecidableEq

/-- exportHighRes (main.ts lines 565-588): a fresh 1024 by 1024 canvas, a
scale(4, 4) transform, then a replay of the command log only (the preview
is never consulted). -/
def exportHighRes (commands : List Drawable) (pts : Nat → List Point) :
    ExportSurface :=
  { width := 1024
    height := 1024
    ops := CanvasOp.scale 4 4 :: (commands.map (displayDrawable pts)).flatten }

/-- The initial state of main.ts: empty stacks, no open stroke, idle, no
preview, thin marker with hue 0, sliders at 0. -/
def initState : State :=
  { commands := []
    undoneCmd := []
    strokePoints := fun _ => []
    nextId := 0
    currentCmd := none
    isDrawing := false
    toolPreview := none
    currentTool := Tool.marker ⟨2, 0⟩
    currentHue := 0
    currentRotation := 0 }

/-! ### The command-log sub-model

The two stacks together with the three operations performed on them by the
handlers: commit (push + clear redo, the two push sites in the mousedown
handler), undo (lines 540-546) and redo (lines 549-555).  `toLog` projects
the full state onto this sub-model and the lemmas below show each handler
acts on the projection exactly as `applyLog`. -/

/-- Just the two stacks. -/
structure LogState where
  commands : List Drawable
  undoneCmd : List Drawable
  deriving Repr, DecidableEq

/-- The three log operations. -/
inductive LogOp where
  | commit (d : Drawable)
  | undo
  | redo
  deriving Repr, DecidableEq

/-- The effect of each operation on the two stacks, translated from the
mousedown push sites and the undo/redo button handlers. -/
def applyLog (s : LogState) : LogOp → LogState
  | LogOp.commit d => ⟨s.commands ++ [d], []⟩
  | LogOp.undo =>
    match s.commands.getLast? with
    | none => s
    | some d => ⟨s.commands.dropLast, s.undoneCmd ++ [d]⟩
  | LogOp.redo =>
    match s.undoneCmd.getLast? with
    | none => s
    | some d => ⟨s.commands ++ [d], s.undoneCmd.dropLast⟩

/-- Run a list of log operations. -/
def runLog (s : LogState) (ops : List LogOp) : LogState :=
  ops.foldl applyLog s

/-- The drawables still reachable from the two stacks, in commit order:
the log followed by the redo stack read top-to-bottom. -/
def liveEntries (s : LogState) : List Drawable :=
  s.commands ++ s.undoneCmd.reverse

/-- The drawables a sequence of operations commits, in commit order. -/
def commitsOf (ops : List LogOp) : List Drawable :=
  ops.filterMap fun op =>
    match op with
    | LogOp.commit d => some d
    | _ => none

/-- Projection of the full state onto the command-log sub-model. -/
def State.toLog (s : State) : LogState :=
  ⟨s.commands, s.undoneCmd⟩

lemma step_clickUndo_toLog (s : State) :
    ((step s InputEvent.clickUndo).1).toLog = applyLog s.toLog LogOp.undo := by
  cases h : s.commands.getLast? <;> simp [step, applyLog, State.toLog, h]

lemma step_clickRedo_toLog (s : State) :
    ((step s InputEvent.clickRedo).1).toLog = applyLog s.toLog LogOp.redo := by
  cases h : s.undoneCmd.getLast? <;> simp [step, applyLog, State.toLog, h]

lemma step_mousedown_sticker_toLog (s : State) (st : StickerTool) (x y : Int)
    (h : s.currentTool = Tool.sticker st) :
    ((step s (InputEvent.mousedown 0 x y)).1).toLog
      = applyLog s.toLog (LogOp.commit (Drawable.sticker x y st)) := by
  simp [step, applyLog, State.toLog, h]

lemma step_mousedown_marker_toLog (s : State) (mt : MarkerTool) (x y : Int)
    (h : s.currentTool = Tool.marker mt) :
    ((step s (InputEvent.mousedown 0 x y)).1).toLog
      = applyLog s.toLog (LogOp.commit (Drawable.line s.nextId mt)) := by
  simp [step, applyLog, State.toLog, h]

/-! ### Claims -/

/-- C6: a MarkerLine whose recorded point sequence has fewer than 2 points
issues zero canvas operations when displayed: in particular no moveTo, no
lineTo and no stroke call. -/
theorem C6_short_line_renders_nothing (points : List Point) (tool : MarkerTool)
    (h : points.length < 2) : markerLineDisplay points tool = [] := by
  unfold markerLineDisplay
  rw [if_pos h]

theorem C6_short_line_renders_nothing_witness :
    markerLineDisplay [((7 : Int), (9 : Int))] ⟨2, 0⟩ = [] :=
  C6_short_line_renders_nothing [((7 : Int), (9 : Int))] ⟨2, 0⟩ (by decide)

/-- C1 (amended): undo and redo preserve the live entries (log plus
reversed redo stack) and hence preserve `len(log) + len(redo)`; commit
appends to the log and unconditionally empties the redo stack, so
`len(log) + len(redo)` counts the commits still live rather than all
commits ever made; undo with a nonempty log moves exactly its last entry
to the top of the redo stack, and redo with a nonempty redo stack moves
exactly its top back onto the log, so no Drawable is duplicated or lost
by undo/redo. -/
theorem C1_two_stack_conservation (s : LogState) (d : Drawable) :
    liveEntries (applyLog s LogOp.undo) = liveEntries s ∧
    liveEntries (applyLog s LogOp.redo) = liveEntries s ∧
    applyLog s (LogOp.commit d) = ⟨s.commands ++ [d], []⟩ ∧
    (∀ cs c, s.commands = cs ++ [c] →
      applyLog s LogOp.undo = ⟨cs, s.undoneCmd ++ [c]⟩) ∧
    (∀ us u, s.undoneCmd = us ++ [u] →
      applyLog s LogOp.redo = ⟨s.commands ++ [u], us⟩) := by
  refine ⟨?_, ?_, rfl, ?_, ?_⟩
  · rcases List.eq_nil_or_concat s.commands with h | ⟨cs, c, h⟩
    · simp [applyLog, liveEntries, h]
    · simp [applyLog, liveEntries, h]
  · rcases List.eq_nil_or_concat s.undoneCmd with h | ⟨us, u, h⟩
    · simp [applyLog, liveEntries, h]
    · simp [applyLog, liveEntries, h]
  · intro cs c h
    simp [applyLog, h]
  · intro us u h
    simp [applyLog, h]

theorem C1_two_stack_conservation_witness :
    applyLog ⟨[Drawable.sticker 1 1 ⟨⟨"S", none⟩, 0⟩], []⟩ LogOp.undo
      = ⟨[], [Drawable.sticker 1 1 ⟨⟨"S", none⟩, 0⟩]⟩ :=
  (C1_two_stack_conservation ⟨[Drawable.sticker 1 1 ⟨⟨"S", none⟩, 0⟩], []⟩
      (Drawable.sticker 1 1 ⟨⟨"S", none⟩, 0⟩)).2.2.2.1
    [] (Drawable.sticker 1 1 ⟨⟨"S", none⟩, 0⟩) rfl

/-- C1 counterexample: for the operation sequence commit A, undo, commit B
(no clear anywhere), the final log is [B] while the commit-order sequence
minus the (empty) redo stack is [A, B], and `len(log) + len(redo)` is 1
while the total number of commits is 2 — the second commit discarded A
from the redo stack, so the claim's two equalities both fail. -/
theorem C1_counterexample :
    (runLog ⟨[], []⟩
        [LogOp.commit (Drawable.sticker 0 0 ⟨⟨"S", none⟩, 0⟩), LogOp.undo,
         LogOp.commit (Drawable.sticker 1 1 ⟨⟨"S", none⟩, 0⟩)]).commands.length
      + (runLog ⟨[], []⟩
        [LogOp.commit (Drawable.sticker 0 0 ⟨⟨"S", none⟩, 0⟩), LogOp.undo,
         LogOp.commit (Drawable.sticker 1 1 ⟨⟨"S", none⟩, 0⟩)]).undoneCmd.length
      ≠ (commitsOf
        [LogOp.commit (Drawable.sticker 0 0 ⟨⟨"S", none⟩, 0⟩), LogOp.undo,
         LogOp.commit (Drawable.sticker 1 1 ⟨⟨"S", none⟩, 0⟩)]).length ∧
    (runLog ⟨[], []⟩
        [LogOp.commit (Drawable.sticker 0 0 ⟨⟨"S", none⟩, 0⟩), LogOp.undo,
         LogOp.commit (Drawable.sticker 1 1 ⟨⟨"S", none⟩, 0⟩)]).commands
      ≠ commitsOf
        [LogOp.commit (Drawable.sticker 0 0 ⟨⟨"S", none⟩, 0⟩), LogOp.undo,
         LogOp.commit (Drawable.sticker 1 1 ⟨⟨"S", none⟩, 0⟩)] := by
  constructor
  · decide
  · decide

/-- C2: a commit — a primary-button pointer-down, whether it places a
sticker atomically or opens a new marker stroke — appends the new Drawable
to the log and unconditionally empties the redo stack, from every prior
state; and a redo issued immediately afterwards is a complete no-op (state
unchanged, no event dispatched). -/
theorem C2_commit_clears_redo (s : State) (x y : Int) :
    (∀ st, s.currentTool = Tool.sticker st →
      (step s (InputEvent.mousedown 0 x y)).1.commands
          = s.commands ++ [Drawable.sticker x y st] ∧
      (step s (InputEvent.mousedown 0 x y)).1.undoneCmd = [] ∧
      step (step s (InputEvent.mousedown 0 x y)).1 InputEvent.clickRedo
          = ((step s (InputEvent.mousedown 0 x y)).1, [])) ∧
    (∀ mt, s.currentTool = Tool.marker mt →
      (step s (InputEvent.mousedown 0 x y)).1.commands
          = s.commands ++ [Drawable.line s.nextId mt] ∧
      (step s (InputEvent.mousedown 0 x y)).1.undoneCmd = [] ∧
      step (step s (InputEvent.mousedown 0 x y)).1 InputEvent.clickRedo
          = ((step s (InputEvent.mousedown 0 x y)).1, [])) := by
  constructor
  · intro st h
    refine ⟨by simp [step, h], by simp [step, h], ?_⟩
    simp [step, h]
  · intro mt h
    refine ⟨by simp [step, h], by simp [step, h], ?_⟩
    simp [step, h]

theorem C2_commit_clears_redo_witness :
    (step initState (InputEvent.mousedown 0 3 4)).1.commands
        = initState.commands ++ [Drawable.line initState.nextId ⟨2, 0⟩] ∧
    (step initState (InputEvent.mousedown 0 3 4)).1.undoneCmd = [] ∧
    step (step initState (InputEvent.mousedown 0 3 4)).1 InputEvent.clickRedo
        = ((step initState (InputEvent.mousedown 0 3 4)).1, []) :=
  (C2_commit_clears_redo initState 3 4).2 ⟨2, 0⟩ rfl

/-- C3: undo with an empty log and redo with an empty redo stack are
complete no-ops: the state (log, redo stack, preview, drawing state, all
of it) is unchanged and no render-triggering event is dispatched. -/
theorem C3_empty_undo_redo_noop (s : State) :
    (s.commands = [] → step s InputEvent.clickUndo = (s, [])) ∧
    (s.undoneCmd = [] → step s InputEvent.clickRedo = (s, [])) := by
  constructor
  · intro h
    simp [step, h]
  · intro h
    simp [step, h]

theorem C3_empty_undo_redo_noop_witness :
    step initState InputEvent.clickUndo = (initState, []) ∧
    step initState InputEvent.clickRedo = (initState, []) :=
  ⟨(C3_empty_undo_redo_noop initState).1 rfl,
   (C3_empty_undo_redo_noop initState).2 rfl⟩

/-- C4 (amended): only a commit (primary-button pointer-down) resets the
preview to none; undo, redo and clear leave the preview exactly as it was,
in every prior state. -/
theorem C4_preview_reset_only_on_commit (s : State) (x y : Int) :
    (step s (InputEvent.mousedown 0 x y)).1.toolPreview = none ∧
    (step s InputEvent.clickUndo).1.toolPreview = s.toolPreview ∧
    (step s InputEvent.clickRedo).1.toolPreview = s.toolPreview ∧
    (step s InputEvent.clickClear).1.toolPreview = s.toolPreview := by
  refine ⟨?_, ?_, ?_, rfl⟩
  · cases h : s.currentTool <;> simp [step, h]
  · cases h : s.commands.getLast? <;> simp [step, h]
  · cases h : s.undoneCmd.getLast? <;> simp [step, h]

/-- C4 counterexample: from a state with a live preview and a nonempty
log, undo mutates the log (it becomes empty) yet the preview is still the
same live preview, not none, contradicting the claim that every log
mutation resets the preview. -/
theorem C4_counterexample :
    (step { initState with
              commands := [Drawable.sticker 5 5 ⟨⟨"S", none⟩, 0⟩],
              toolPreview := some (PreviewCmd.markerPrev 1 1 ⟨2, 0⟩) }
        InputEvent.clickUndo).1.commands = [] ∧
    (step { initState with
              commands := [Drawable.sticker 5 5 ⟨⟨"S", none⟩, 0⟩],
              toolPreview := some (PreviewCmd.markerPrev 1 1 ⟨2, 0⟩) }
        InputEvent.clickUndo).1.toolPreview
      = some (PreviewCmd.markerPrev 1 1 ⟨2, 0⟩) := by
  constructor
  · simp [step, initState]
  · simp [step, initState]

/-- C5 (amended): switching the active tool while a preview is live leaves
the existing preview object unchanged (it is not set to none, and the
redraw the switch triggers still shows the old tool's shape); the new
tool's shape only appears in the preview at the next pointer-move while
idle, which recomputes the preview from the newly selected tool. -/
theorem C5_tool_switch_keeps_old_preview (s : State) (w : Nat) (sk : Sticker)
    (x y : Int) :
    (step s (InputEvent.selectStickerBtn sk)).1.toolPreview = s.toolPreview ∧
    (step s (InputEvent.selectMarkerBtn w)).1.toolPreview = s.toolPreview ∧
    (s.isDrawing = false →
      (step (step s (InputEvent.selectStickerBtn sk)).1
          (InputEvent.mousemove x y)).1.toolPreview
        = some (PreviewCmd.stickerPrev x y ⟨sk, s.currentRotation⟩)) := by
  refine ⟨rfl, rfl, ?_⟩
  intro h
  simp [step, makePreview, h]

theorem C5_tool_switch_keeps_old_preview_witness :
    (step initState (InputEvent.selectStickerBtn ⟨"S", none⟩)).1.toolPreview
        = initState.toolPreview ∧
    (step (step initState (InputEvent.selectStickerBtn ⟨"S", none⟩)).1
        (InputEvent.mousemove 3 4)).1.toolPreview
      = some (PreviewCmd.stickerPrev 3 4 ⟨⟨"S", none⟩, initState.currentRotation⟩) :=
  ⟨(C5_tool_switch_keeps_old_preview initState 2 ⟨"S", none⟩ 3 4).1,
   (C5_tool_switch_keeps_old_preview initState 2 ⟨"S", none⟩ 3 4).2.2 rfl⟩

/-- C5 counterexample: while idle with a live marker preview, clicking a
sticker palette button leaves the preview as the old marker preview — it
is not set to none, and the very next rendered preview (the redraw the
switch dispatches) still has the marker shape. -/
theorem C5_counterexample :
    (step { initState with toolPreview := some (PreviewCmd.markerPrev 1 1 ⟨2, 0⟩) }
        (InputEvent.selectStickerBtn ⟨"S", none⟩)).1.toolPreview
      = some (PreviewCmd.markerPrev 1 1 ⟨2, 0⟩) ∧
    (step { initState with toolPreview := some (PreviewCmd.markerPrev 1 1 ⟨2, 0⟩) }
        (InputEvent.selectStickerBtn ⟨"S", none⟩)).1.toolPreview ≠ none := by
  constructor
  · rfl
  · simp [step]

/-- C7: clicking export changes no core state and dispatches no
render-triggering event; the export surface it produces is an independent
1024 by 1024 canvas (256 base times scale factor 4) whose operations are a
uniform scale(4, 4) followed by the replay of exactly the committed log in
commit order; and the output is independent of the preview. -/
theorem C7_export_high_res (s : State) :
    step s InputEvent.clickExport = (s, []) ∧
    (exportHighRes s.commands s.strokePoints).width = 256 * 4 ∧
    (exportHighRes s.commands s.strokePoints).height = 256 * 4 ∧
    (exportHighRes s.commands s.strokePoints).ops
      = CanvasOp.scale 4 4 ::
          (s.commands.map (displayDrawable s.strokePoints)).flatten ∧
    (∀ p : Option PreviewCmd,
      exportHighRes ({ s with toolPreview := p }).commands
          ({ s with toolPreview := p }).strokePoints
        = exportHighRes s.commands s.strokePoints) :=
  ⟨rfl, rfl, rfl, rfl, fun _ => rfl⟩

/-- C8 (amended): the hue slider always stores the new value in the global
currentHue mirror and the rotation slider always stores into the global
currentRotation mirror, even when the active tool is of the other kind —
so the sliders are not state-preserving no-ops in that case, though the
active ToolState itself is untouched; when the kind matches, only the hue
(respectively rotation) field of the active ToolState changes, with the
width (respectively glyph) preserved. -/
theorem C8_sliders (s : State) (v : Int) :
    (∀ st, s.currentTool = Tool.sticker st →
      step s (InputEvent.hueInput v)
        = ({ s with currentHue := v }, [RenderEvent.toolMoved])) ∧
    (∀ mt, s.currentTool = Tool.marker mt →
      step s (InputEvent.hueInput v)
        = ({ s with currentHue := v,
                    currentTool := Tool.marker ⟨mt.width, v⟩ },
           [RenderEvent.toolMoved])) ∧
    (∀ mt, s.currentTool = Tool.marker mt →
      step s (InputEvent.rotationInput v)
        = ({ s with currentRotation := v }, [RenderEvent.toolMoved])) ∧
    (∀ st, s.currentTool = Tool.sticker st →
      step s (InputEvent.rotationInput v)
        = ({ s with currentRotation := v,
                    currentTool := Tool.sticker ⟨st.sticker, v⟩ },
           [RenderEvent.toolMoved])) := by
  refine ⟨?_, ?_, ?_, ?_⟩ <;> intro t h <;> simp [step, h]

theorem C8_sliders_witness :
    step { initState with currentTool := Tool.sticker ⟨⟨"S", none⟩, 0⟩ }
        (InputEvent.hueInput 100)
      = ({ { initState with currentTool := Tool.sticker ⟨⟨"S", none⟩, 0⟩ } with
             currentHue := 100 }, [RenderEvent.toolMoved]) :=
  (C8_sliders { initState with currentTool := Tool.sticker ⟨⟨"S", none⟩, 0⟩ }
      100).1 ⟨⟨"S", none⟩, 0⟩ rfl

/-- C8 counterexample: with a sticker tool active, a hue slider input is
not a no-op on program state: the global currentHue changes from 0 to
100 (and a tool-moved render event is dispatched). -/
theorem C8_counterexample :
    (step { initState with currentTool := Tool.sticker ⟨⟨"S", none⟩, 0⟩ }
        (InputEvent.hueInput 100)).1.currentHue = 100 ∧
    ({ initState with
         currentTool := Tool.sticker ⟨⟨"S", none⟩, 0⟩ } : State).currentHue = 0 ∧
    (step { initState with currentTool := Tool.sticker ⟨⟨"S", none⟩, 0⟩ }
        (InputEvent.hueInput 100)).2 = [RenderEvent.toolMoved] := by
  refine ⟨rfl, rfl, rfl⟩

/-- C9 (amended): a pointer-down with a non-primary button is a complete
no-op (no commit, no opened stroke, no event), but the global mouseup
handler ignores the button entirely: a mouseup carrying any button,
non-primary included, ends the Drawing state and drops the open-stroke
reference. -/
theorem C9_nonprimary_buttons (s : State) (b : Nat) (x y : Int) :
    (b ≠ 0 → step s (InputEvent.mousedown b x y) = (s, [])) ∧
    (∀ b2, step s (InputEvent.mouseup b2)
        = ({ s with isDrawing := false, currentCmd := none }, [])) := by
  constructor
  · intro h
    simp [step, h]
  · intro b2
    rfl

theorem C9_nonprimary_buttons_witness :
    step initState (InputEvent.mousedown 2 3 4) = (initState, []) ∧
    step initState (InputEvent.mouseup 2)
      = ({ initState with isDrawing := false, currentCmd := none }, []) :=
  ⟨(C9_nonprimary_buttons initState 2 3 4).1 (by decide),
   (C9_nonprimary_buttons initState 2 3 4).2 2⟩

/-- C9 counterexample: from a Drawing state with an open stroke, a mouseup
carrying non-primary button 2 changes state: it ends the Drawing state and
clears the open-stroke reference, contradicting the claim that events with
a non-primary button never change any state. -/
theorem C9_counterexample :
    (step { initState with isDrawing := true, currentCmd := some 0 }
        (InputEvent.mouseup 2)).1.isDrawing = false ∧
    ({ initState with isDrawing := true, currentCmd := some 0 } : State).isDrawing
        = true ∧
    (step { initState with isDrawing := true, currentCmd := some 0 }
        (InputEvent.mouseup 2)).1.currentCmd = none := by
  refine ⟨rfl, rfl, rfl⟩

/-- The property of C10: starting from any state whose active tool is a
marker, the five-event sequence pointer-down, pointer-move, undo,
pointer-move, redo behaves as follows: after the undo the fresh stroke is
out of the log (so no longer rendered) and on the redo stack, yet the
controller still holds it as the open stroke in the Drawing state; the
pointer-move after the undo still appends its point to that stroke; and
the redo restores the stroke to the log with all three points, the
post-undo point included. -/
def openStrokeUndoProp (s : State) (mt : MarkerTool) (x1 y1 x2 y2 x3 y3 : Int) :
    Prop :=
  (runEvents s [InputEvent.mousedown 0 x1 y1, InputEvent.mousemove x2 y2,
      InputEvent.clickUndo]).commands = s.commands ∧
  (runEvents s [InputEvent.mousedown 0 x1 y1, InputEvent.mousemove x2 y2,
      InputEvent.clickUndo]).undoneCmd = [Drawable.line s.nextId mt] ∧
  (runEvents s [InputEvent.mousedown 0 x1 y1, InputEvent.mousemove x2 y2,
      InputEvent.clickUndo]).currentCmd = some s.nextId ∧
  (runEvents s [InputEvent.mousedown 0 x1 y1, InputEvent.mousemove x2 y2,
      InputEvent.clickUndo]).isDrawing = true ∧
  (runEvents s [InputEvent.mousedown 0 x1 y1, InputEvent.mousemove x2 y2,
      InputEvent.clickUndo, InputEvent.mousemove x3 y3]).strokePoints s.nextId
    = [(x1, y1), (x2, y2), (x3, y3)] ∧
  (runEvents s [InputEvent.mousedown 0 x1 y1, InputEvent.mousemove x2 y2,
      InputEvent.clickUndo, InputEvent.mousemove x3 y3]).commands = s.commands ∧
  (runEvents s [InputEvent.mousedown 0 x1 y1, InputEvent.mousemove x2 y2,
      InputEvent.clickUndo, InputEvent.mousemove x3 y3,
      InputEvent.clickRedo]).commands
    = s.commands ++ [Drawable.line s.nextId mt] ∧
  (runEvents s [InputEvent.mousedown 0 x1 y1, InputEvent.mousemove x2 y2,
      InputEvent.clickUndo, InputEvent.mousemove x3 y3,
      InputEvent.clickRedo]).undoneCmd = [] ∧
  (runEvents s [InputEvent.mousedown 0 x1 y1, InputEvent.mousemove x2 y2,
      InputEvent.clickUndo, InputEvent.mousemove x3 y3,
      InputEvent.clickRedo]).strokePoints s.nextId
    = [(x1, y1), (x2, y2), (x3, y3)]

/-- C10: undo while a LineStroke is still open moves the stroke to the
redo stack but leaves it as the controller's open stroke; later
pointer-moves keep appending points to it even though it is no longer in
the log (so no longer rendered), and a later redo restores it to the log
including the points added after the undo. -/
theorem C10_undo_open_stroke (s : State) (mt : MarkerTool)
    (x1 y1 x2 y2 x3 y3 : Int) (h : s.currentTool = Tool.marker mt) :
    openStrokeUndoProp s mt x1 y1 x2 y2 x3 y3 := by
  unfold openStrokeUndoProp runEvents
  simp [step, h, updatePts, List.getLast?_concat, List.dropLast_concat]

theorem C10_undo_open_stroke_witness :
    openStrokeUndoProp initState ⟨2, 0⟩ 0 0 1 1 2 2 :=
  C10_undo_open_stroke initState ⟨2, 0⟩ 0 0 1 1 2 2 rfl

end Waat
